import Mathlib

/- Verification of the portfolio theme and language manager.

   The main script defines a ThemeManager class operating on browser state:
   localStorage, the document root element classList and inline style, the
   root lang attribute, dispatched custom events and setTimeout callbacks.
   We model that environment as an explicit record and every method of the
   class as a state transformer.  A second, independent script toggles a
   hero image between light and dark variants; it is modelled at the end
   of the file under the Hero names. -/

set_option autoImplicit false

namespace Portfolio

/-! ### Association lists: localStorage, object literals and CSS properties -/

/-- Key lookup mirroring localStorage.getItem and reads of a JS object
literal: the first binding wins, a missing key yields none. -/
def getAssoc {α : Type} : List (String × α) → String → Option α
  | [], _ => none
  | p :: rest, k => if p.1 = k then some p.2 else getAssoc rest k

/-- Key update mirroring localStorage.setItem and style.setProperty: the
first binding for the key is replaced, otherwise the pair is appended. -/
def setAssoc : List (String × String) → String → String → List (String × String)
  | [], k, v => [(k, v)]
  | p :: rest, k, v => if p.1 = k then (k, v) :: rest else p :: setAssoc rest k v

/-- Key removal mirroring localStorage.removeItem. -/
def removeAssoc : List (String × String) → String → List (String × String)
  | [], _ => []
  | p :: rest, k => if p.1 = k then removeAssoc rest k else p :: removeAssoc rest k

/-- A sequence of setProperty calls, one per listed pair, in order. -/
def setProperties : List (String × String) → List (String × String) → List (String × String)
  | l, [] => l
  | l, u :: rest => setProperties (setAssoc l u.1 u.2) rest

/-! ### DOM classList on the root element -/

/-- classList.add: appends the token unless it is already present. -/
def classListAdd (l : List String) (c : String) : List String :=
  if c ∈ l then l else l ++ [c]

/-- classList.remove: removes every occurrence of the token. -/
def classListRemove : List String → String → List String
  | [], _ => []
  | x :: rest, c => if x = c then classListRemove rest c else x :: classListRemove rest c

/-- classList.contains. -/
def classListContains : List String → String → Bool
  | [], _ => false
  | x :: rest, c => if x = c then true else classListContains rest c

/-- JS truthiness of a nullable string: null and the empty string are
falsy, every other string is truthy. -/
def jsTruthy : Option String → Bool
  | none => false
  | some v => v != ""

/-- The JS expression a or-else b for a nullable string a: yields b
exactly when a is null or the empty string. -/
def jsStringOr (a : Option String) (b : String) : String :=
  match a with
  | some v => if v = "" then b else v
  | none => b

/-! ### Constants of the ThemeManager constructor -/

def THEME_STORAGE_KEY : String := "portfolio-theme"

def LANGUAGE_STORAGE_KEY : String := "portfolio-language"

/-- Source constant THEME_CLASS, the dark mode marker class. -/
def THEME_CLASS_NAME : String := "dark-theme"

/-- Source constant TRANSITION_CLASS, the transition enabling class. -/
def TRANSITION_CLASS_NAME : String := "theme-transition"

def SUPPORTED_LANGUAGES : List String :=
  ["en", "es", "fr", "de", "it", "pt", "ja", "zh"]

/-! ### The translation table and getTranslation -/

/-- The static translations object literal of getTranslation. -/
def translations : List (String × List (String × String)) :=
  [ ("en",
      [ ("page-title", "Portfolio"),
        ("page-description", "Welcome to my portfolio"),
        ("theme-toggle", "Toggle Theme"),
        ("language-select", "Select Language") ]),
    ("es",
      [ ("page-title", "Portafolio"),
        ("page-description", "Bienvenido a mi portafolio"),
        ("theme-toggle", "Cambiar Tema"),
        ("language-select", "Seleccionar Idioma") ]),
    ("fr",
      [ ("page-title", "Portefeuille"),
        ("page-description", "Bienvenue dans mon portefeuille"),
        ("theme-toggle", "Basculer le thème"),
        ("language-select", "Sélectionner la langue") ]),
    ("de",
      [ ("page-title", "Portfolio"),
        ("page-description", "Willkommen in meinem Portfolio"),
        ("theme-toggle", "Design wechseln"),
        ("language-select", "Sprache wählen") ]),
    ("it",
      [ ("page-title", "Portafoglio"),
        ("page-description", "Benvenuto nel mio portfolio"),
        ("theme-toggle", "Cambia tema"),
        ("language-select", "Seleziona lingua") ]),
    ("pt",
      [ ("page-title", "Portfólio"),
        ("page-description", "Bem-vindo ao meu portfólio"),
        ("theme-toggle", "Alternar tema"),
        ("language-select", "Selecionar idioma") ]),
    ("ja",
      [ ("page-title", "ポートフォリオ"),
        ("page-description", "ポートフォリオへようこそ"),
        ("theme-toggle", "テーマを切り替える"),
        ("language-select", "言語を選択") ]),
    ("zh",
      [ ("page-title", "作品集"),
        ("page-description", "欢迎来到我的作品集"),
        ("theme-toggle", "切换主题"),
        ("language-select", "选择语言") ]) ]

/-- The JS access translations[langCode]?.[key]: none when either the
language table or the key entry is absent. -/
def translationLookup (langCode key : String) : Option String :=
  match getAssoc translations langCode with
  | some tbl => getAssoc tbl key
  | none => none

/-- getTranslation from the source: the or-chain over the exact entry,
the default language entry and the literal key. -/
def getTranslation (langCode key : String) : String :=
  jsStringOr (translationLookup langCode key)
    (jsStringOr (translationLookup "en" key) key)

/-- The three tier fallback as worded by the spec: the exact entry when
it exists, else the default language entry when it exists, else the
literal key.  Stated for comparison with getTranslation. -/
def getTranslationSpec (langCode key : String) : String :=
  match translationLookup langCode key with
  | some v => v
  | none =>
      match translationLookup "en" key with
      | some v => v
      | none => key

/-! ### Events, timers and the manager state -/

/-- Custom events dispatched on the document. -/
inductive DomEvent where
  | themeChange (isDark : Bool) (theme : String)
  | languageChange (langCode : String) (language : String)
  deriving DecidableEq

/-- Continuations handed to setTimeout, by their effect. -/
inductive TimerAction where
  | clearTransitionMarker
  | swapLanguageText (langCode : String) (animate : Bool)
  | clearTransitionStyle
  deriving DecidableEq

/-- The theme toggle button: its aria-label attribute and innerHTML. -/
structure Button where
  ariaLabel : Option String
  innerHTML : String
  deriving DecidableEq

/-- An element carrying a data-i18n key: input-like elements receive the
translation on their placeholder, the rest on their textContent; the
text field models whichever of the two applies. -/
structure I18nElement where
  key : String
  isInputLike : Bool
  text : String
  deriving DecidableEq

/-- The browser state the ThemeManager reads and writes: localStorage,
the root element classList, lang attribute and inline style, the title
and meta description, the tagged elements, the optional toggle button,
the dispatched events in order, and the scheduled setTimeout callbacks
with their delays in milliseconds. -/
structure ManagerState where
  storage : List (String × String)
  rootClasses : List String
  langAttr : Option String
  rootStyleProps : List (String × String)
  opacityStyle : String
  transitionStyle : String
  titleText : Option String
  metaDescription : Option String
  i18nElements : List I18nElement
  toggleBtn : Option Button
  events : List DomEvent
  pendingTimers : List (Nat × TimerAction)
  deriving DecidableEq

/-- A state with empty storage and a bare root element. -/
def emptyState : ManagerState :=
  { storage := [], rootClasses := [], langAttr := none, rootStyleProps := [],
    opacityStyle := "", transitionStyle := "", titleText := none,
    metaDescription := none, i18nElements := [], toggleBtn := none,
    events := [], pendingTimers := [] }

/-! ### ThemeManager methods -/

/-- The seven setProperty calls of updateThemeVariables for dark mode. -/
def darkThemeVariables : List (String × String) :=
  [ ("--bg-primary", "#1a1a1a"),
    ("--bg-secondary", "#2d2d2d"),
    ("--text-primary", "#ffffff"),
    ("--text-secondary", "#b0b0b0"),
    ("--border-color", "#404040"),
    ("--shadow-color", "rgba(0, 0, 0, 0.3)"),
    ("--accent-color", "#6366f1") ]

/-- The seven setProperty calls of updateThemeVariables for light mode. -/
def lightThemeVariables : List (String × String) :=
  [ ("--bg-primary", "#ffffff"),
    ("--bg-secondary", "#f5f5f5"),
    ("--text-primary", "#1a1a1a"),
    ("--text-secondary", "#666666"),
    ("--border-color", "#e0e0e0"),
    ("--shadow-color", "rgba(0, 0, 0, 0.1)"),
    ("--accent-color", "#6366f1") ]

/-- updateThemeVariables: sets the seven CSS custom properties on the
root element style to the values of the selected mode. -/
def updateThemeVariables (isDark : Bool) (s : ManagerState) : ManagerState :=
  let vars := if isDark then darkThemeVariables else lightThemeVariables
  { s with rootStyleProps := setProperties s.rootStyleProps vars }

/-- dispatchThemeChangeEvent: dispatches themeChange with the detail
isDark and the matching theme name. -/
def dispatchThemeChangeEvent (isDark : Bool) (s : ManagerState) : ManagerState :=
  let e := DomEvent.themeChange isDark (if isDark then "dark" else "light")
  { s with events := s.events ++ [e] }

/-- dispatchLanguageChangeEvent: dispatches languageChange with langCode
in both detail fields. -/
def dispatchLanguageChangeEvent (langCode : String) (s : ManagerState) : ManagerState :=
  { s with events := s.events ++ [DomEvent.languageChange langCode langCode] }

/-- setTheme from the source, in its statement order: optionally add the
transition marker class, add or remove the dark marker class, persist
dark or light, set the CSS variables, dispatch the event, and when
animating schedule removal of the transition marker after 300 ms. -/
def setTheme (isDark animate : Bool) (s : ManagerState) : ManagerState :=
  let s1 := if animate then
      { s with rootClasses := classListAdd s.rootClasses TRANSITION_CLASS_NAME }
    else s
  let s2 := if isDark then
      { s1 with rootClasses := classListAdd s1.rootClasses THEME_CLASS_NAME }
    else
      { s1 with rootClasses := classListRemove s1.rootClasses THEME_CLASS_NAME }
  let s3 := { s2 with storage := setAssoc s2.storage THEME_STORAGE_KEY (if isDark then "dark" else "light") }
  let s4 := updateThemeVariables isDark s3
  let s5 := dispatchThemeChangeEvent isDark s4
  if animate then
    { s5 with pendingTimers := s5.pendingTimers ++ [(300, TimerAction.clearTransitionMarker)] }
  else s5

/-- setLanguage from the source: an unsupported code is replaced by en,
the fade styles are set when animating, the lang attribute and storage
receive the resolved code, and the text swap continuation is scheduled
after 150 ms.  Translation swap, opacity restore and the language event
all live in that continuation. -/
def setLanguage (langCode : String) (animate : Bool) (s : ManagerState) : ManagerState :=
  let resolved := if langCode ∈ SUPPORTED_LANGUAGES then langCode else "en"
  let s1 := if animate then
      { s with opacityStyle := "0.7", transitionStyle := "opacity 0.3s ease-in-out" }
    else s
  let s2 := { s1 with langAttr := some resolved }
  let s3 := { s2 with storage := setAssoc s2.storage LANGUAGE_STORAGE_KEY resolved }
  { s3 with pendingTimers := s3.pendingTimers ++ [(150, TimerAction.swapLanguageText resolved animate)] }

/-- updatePageTranslations: rewrites every tagged element with its
translation, and the title and meta description with the two reserved
keys, when those nodes are present. -/
def updatePageTranslations (langCode : String) (s : ManagerState) : ManagerState :=
  let elems := s.i18nElements.map (fun e => { e with text := getTranslation langCode e.key })
  let title := s.titleText.map (fun _ => getTranslation langCode "page-title")
  let meta := s.metaDescription.map (fun _ => getTranslation langCode "page-description")
  { s with i18nElements := elems, titleText := title, metaDescription := meta }

/-- Effect of a fired setTimeout continuation. -/
def runTimerAction : TimerAction → ManagerState → ManagerState
  | TimerAction.clearTransitionMarker, s =>
      { s with rootClasses := classListRemove s.rootClasses TRANSITION_CLASS_NAME }
  | TimerAction.swapLanguageText langCode animate, s =>
      let s1 := updatePageTranslations langCode s
      let s2 := if animate then
          { s1 with opacityStyle := "1", pendingTimers := s1.pendingTimers ++ [(300, TimerAction.clearTransitionStyle)] }
        else s1
      dispatchLanguageChangeEvent langCode s2
  | TimerAction.clearTransitionStyle, s => { s with transitionStyle := "" }

/-- The JS expression s.split(sep)[0].toLowerCase() for sep a single
dash: the characters before the first dash, lowercased. -/
def splitHeadLower (s : String) : String :=
  String.mk ((s.data.takeWhile (fun c => c != '-')).map Char.toLower)

/-- detectBrowserLanguage: the primary subtag of the reported locale,
lowercased, when supported, else en. -/
def detectBrowserLanguage (browserLang : String) : String :=
  let langCode := splitHeadLower browserLang
  if langCode ∈ SUPPORTED_LANGUAGES then langCode else "en"

/-- initializeTheme, with the media query result passed explicitly: a
truthy stored value chooses dark exactly when it equals dark, otherwise
the OS signal decides; the result is applied without animation.  The
change listener it registers is modelled by systemThemeChangeHandler. -/
def initializeTheme (prefersDark : Bool) (s : ManagerState) : ManagerState :=
  let savedTheme := getAssoc s.storage THEME_STORAGE_KEY
  let isDark : Bool :=
    if jsTruthy savedTheme = true then decide (savedTheme.getD "" = "dark")
    else prefersDark
  setTheme isDark false s

/-- The listener registered by initializeTheme on the media query: when
the stored theme value is falsy, the new OS preference is applied with
animation, otherwise nothing happens. -/
def systemThemeChangeHandler (eMatches : Bool) (s : ManagerState) : ManagerState :=
  if jsTruthy (getAssoc s.storage THEME_STORAGE_KEY) = true then s
  else setTheme eMatches true s

/-- initializeLanguage, with the browser locale passed explicitly: a
truthy stored value found in the supported set is applied, otherwise the
detected browser language is; both without animation. -/
def initializeLanguage (browserLang : String) (s : ManagerState) : ManagerState :=
  let savedLanguage := getAssoc s.storage LANGUAGE_STORAGE_KEY
  if jsTruthy savedLanguage = true ∧ savedLanguage.getD "" ∈ SUPPORTED_LANGUAGES then
    setLanguage (savedLanguage.getD "") false s
  else
    setLanguage (detectBrowserLanguage browserLang) false s

/-- updateThemeToggleButton: when the button exists, its aria-label and
icon are recomputed from the current root classList. -/
def updateThemeToggleButton (s : ManagerState) : ManagerState :=
  match s.toggleBtn with
  | none => s
  | some _ =>
      let isDark := classListContains s.rootClasses THEME_CLASS_NAME
      let label := if isDark then "Switch to light theme" else "Switch to dark theme"
      let icon := if isDark then "☀️" else "🌙"
      { s with toggleBtn := some (Button.mk (some label) icon) }

/-- toggleTheme: reads the applied theme from the root classList, applies
the inverse with animation, then refreshes the toggle button. -/
def toggleTheme (s : ManagerState) : ManagerState :=
  let isDark := classListContains s.rootClasses THEME_CLASS_NAME
  updateThemeToggleButton (setTheme (!isDark) true s)

/-- getCurrentTheme from the source. -/
def getCurrentTheme (s : ManagerState) : String :=
  if classListContains s.rootClasses THEME_CLASS_NAME then "dark" else "light"

/-- getCurrentLanguage from the source: the lang attribute or-else en. -/
def getCurrentLanguage (s : ManagerState) : String :=
  jsStringOr s.langAttr "en"

/-- resetToSystemPreferences: removes both storage keys.  The forced
location.reload it then performs is modelled by re-running the two
initializers on a reloaded state keeping only the storage. -/
def resetToSystemPreferences (s : ManagerState) : ManagerState :=
  { s with storage := removeAssoc (removeAssoc s.storage THEME_STORAGE_KEY) LANGUAGE_STORAGE_KEY }

/-- The state a fresh page load starts from: the surviving storage with a
bare document. -/
def reloadedState (storage : List (String × String)) : ManagerState :=
  { emptyState with storage := storage }

/-! ### Lemmas about the storage and style primitives -/

lemma getAssoc_setAssoc_self (l : List (String × String)) (k v : String) :
    getAssoc (setAssoc l k v) k = some v := by
  induction l with
  | nil => simp [setAssoc, getAssoc]
  | cons p rest ih =>
      by_cases h : p.1 = k
      · simp [setAssoc, h, getAssoc]
      · simp [setAssoc, h, getAssoc, ih]

lemma getAssoc_setAssoc_ne (l : List (String × String)) (k v k2 : String) (h : k2 ≠ k) :
    getAssoc (setAssoc l k v) k2 = getAssoc l k2 := by
  induction l with
  | nil => simp [setAssoc, getAssoc, Ne.symm h]
  | cons p rest ih =>
      by_cases hp : p.1 = k
      · subst hp
        simp [setAssoc, getAssoc, Ne.symm h]
      · simp [setAssoc, hp, getAssoc, ih]

lemma setAssoc_of_getAssoc_eq (l : List (String × String)) (k v : String)
    (h : getAssoc l k = some v) : setAssoc l k v = l := by
  induction l with
  | nil => simp [getAssoc] at h
  | cons p rest ih =>
      obtain ⟨p1, p2⟩ := p
      by_cases hp : p1 = k
      · subst hp
        simp only [getAssoc, eq_self_iff_true, if_true, Option.some.injEq] at h
        subst h
        simp [setAssoc]
      · simp only [getAssoc, if_neg hp] at h
        simp [setAssoc, hp, ih h]

lemma getAssoc_removeAssoc_self (l : List (String × String)) (k : String) :
    getAssoc (removeAssoc l k) k = none := by
  induction l with
  | nil => simp [removeAssoc, getAssoc]
  | cons p rest ih =>
      simp only [removeAssoc]
      by_cases hp : p.1 = k
      · rw [if_pos hp]
        exact ih
      · rw [if_neg hp]
        simp only [getAssoc]
        rw [if_neg hp]
        exact ih

lemma getAssoc_removeAssoc_ne (l : List (String × String)) (k k2 : String) (h : k2 ≠ k) :
    getAssoc (removeAssoc l k) k2 = getAssoc l k2 := by
  induction l with
  | nil => simp [removeAssoc]
  | cons p rest ih =>
      simp only [removeAssoc, getAssoc]
      by_cases hp : p.1 = k
      · rw [if_pos hp, ih, if_neg (hp ▸ Ne.symm h)]
      · rw [if_neg hp]
        simp only [getAssoc]
        rw [ih]

lemma exists_mem_of_getAssoc_eq_some {α : Type} (l : List (String × α)) (k : String)
    (v : α) (h : getAssoc l k = some v) : ∃ p, p ∈ l ∧ p.1 = k ∧ p.2 = v := by
  induction l with
  | nil => simp [getAssoc] at h
  | cons p rest ih =>
      by_cases hp : p.1 = k
      · simp [getAssoc, hp] at h
        exact ⟨p, List.mem_cons_self p rest, hp, h⟩
      · simp [getAssoc, hp] at h
        obtain ⟨q, hq, h1, h2⟩ := ih h
        exact ⟨q, List.mem_cons_of_mem p hq, h1, h2⟩

lemma getAssoc_setProperties_of_not_mem (us l : List (String × String)) (k : String)
    (h : ∀ p ∈ us, p.1 ≠ k) : getAssoc (setProperties l us) k = getAssoc l k := by
  induction us generalizing l with
  | nil => rfl
  | cons u rest ih =>
      have hu : u.1 ≠ k := h u (List.mem_cons_self u rest)
      rw [setProperties, ih (setAssoc l u.1 u.2) (fun p hp => h p (List.mem_cons_of_mem u hp)),
        getAssoc_setAssoc_ne l u.1 u.2 k (fun hk => hu hk.symm)]

lemma getAssoc_setProperties_self (us : List (String × String))
    (h : (us.map Prod.fst).Nodup) (l : List (String × String)) (p : String × String)
    (hp : p ∈ us) : getAssoc (setProperties l us) p.1 = some p.2 := by
  induction us generalizing l with
  | nil => simp at hp
  | cons u rest ih =>
      rw [List.map_cons, List.nodup_cons] at h
      rcases List.mem_cons.mp hp with h1 | h1
      · subst h1
        rw [setProperties, getAssoc_setProperties_of_not_mem rest _ p.1
          (fun q hq hqk => h.1 (hqk ▸ List.mem_map_of_mem Prod.fst hq))]
        exact getAssoc_setAssoc_self l p.1 p.2
      · exact ih h.2 (setAssoc l u.1 u.2) h1

lemma setProperties_of_agrees (us l : List (String × String))
    (h : ∀ p ∈ us, getAssoc l p.1 = some p.2) : setProperties l us = l := by
  induction us generalizing l with
  | nil => rfl
  | cons u rest ih =>
      rw [setProperties, setAssoc_of_getAssoc_eq l u.1 u.2 (h u (List.mem_cons_self u rest))]
      exact ih l (fun p hp => h p (List.mem_cons_of_mem u hp))

lemma setProperties_idem (us l : List (String × String))
    (h : (us.map Prod.fst).Nodup) :
    setProperties (setProperties l us) us = setProperties l us :=
  setProperties_of_agrees us (setProperties l us)
    (fun p hp => getAssoc_setProperties_self us h l p hp)

/-! ### Lemmas about the classList primitives -/

lemma mem_classListAdd (l : List String) (c a : String) :
    a ∈ classListAdd l c ↔ a ∈ l ∨ a = c := by
  unfold classListAdd
  by_cases h : c ∈ l
  · simp only [if_pos h]
    exact ⟨Or.inl, fun hm => hm.elim id (fun ha => ha ▸ h)⟩
  · simp [if_neg h]

lemma classListAdd_idem (l : List String) (c : String) :
    classListAdd (classListAdd l c) c = classListAdd l c := by
  by_cases h : c ∈ l <;> simp [classListAdd, h]

lemma nodup_classListAdd (l : List String) (c : String) (h : l.Nodup) :
    (classListAdd l c).Nodup := by
  unfold classListAdd
  by_cases hc : c ∈ l
  · simpa [hc]
  · simp [hc, List.nodup_append, h]

lemma mem_classListRemove (l : List String) (c a : String) :
    a ∈ classListRemove l c ↔ a ∈ l ∧ a ≠ c := by
  induction l with
  | nil => simp [classListRemove]
  | cons x rest ih =>
      simp only [classListRemove]
      by_cases hx : x = c
      · rw [if_pos hx, ih]
        simp only [List.mem_cons]
        constructor
        · exact fun h => ⟨Or.inr h.1, h.2⟩
        · rintro ⟨h1 | h1, h2⟩
          · exact absurd (h1.trans hx) h2
          · exact ⟨h1, h2⟩
      · rw [if_neg hx]
        simp only [List.mem_cons, ih]
        constructor
        · rintro (h1 | ⟨h1, h2⟩)
          · exact ⟨Or.inl h1, fun hc => hx (h1.symm.trans hc)⟩
          · exact ⟨Or.inr h1, h2⟩
        · rintro ⟨h1 | h1, h2⟩
          · exact Or.inl h1
          · exact Or.inr ⟨h1, h2⟩

lemma classListContains_iff (l : List String) (c : String) :
    classListContains l c = true ↔ c ∈ l := by
  induction l with
  | nil => simp [classListContains]
  | cons x rest ih =>
      simp only [classListContains]
      by_cases hx : x = c
      · rw [if_pos hx]
        simp [List.mem_cons, hx]
      · rw [if_neg hx, ih]
        simp only [List.mem_cons]
        constructor
        · exact Or.inr
        · rintro (h1 | h1)
          · exact absurd h1.symm hx
          · exact h1

/-! ### Component lemmas for setTheme, setLanguage and the button -/

lemma setTheme_storage (isDark animate : Bool) (s : ManagerState) :
    (setTheme isDark animate s).storage =
      setAssoc s.storage THEME_STORAGE_KEY (if isDark then "dark" else "light") := by
  cases isDark <;> cases animate <;>
    simp [setTheme, updateThemeVariables, dispatchThemeChangeEvent]

lemma setTheme_rootClasses (isDark animate : Bool) (s : ManagerState) :
    (setTheme isDark animate s).rootClasses =
      (if isDark then
        classListAdd (if animate then classListAdd s.rootClasses TRANSITION_CLASS_NAME else s.rootClasses) THEME_CLASS_NAME
      else
        classListRemove (if animate then classListAdd s.rootClasses TRANSITION_CLASS_NAME else s.rootClasses) THEME_CLASS_NAME) := by
  cases isDark <;> cases animate <;>
    simp [setTheme, updateThemeVariables, dispatchThemeChangeEvent]

lemma setTheme_rootStyleProps (isDark animate : Bool) (s : ManagerState) :
    (setTheme isDark animate s).rootStyleProps =
      setProperties s.rootStyleProps (if isDark then darkThemeVariables else lightThemeVariables) := by
  cases isDark <;> cases animate <;>
    simp [setTheme, updateThemeVariables, dispatchThemeChangeEvent]

lemma setTheme_events (isDark animate : Bool) (s : ManagerState) :
    (setTheme isDark animate s).events =
      s.events ++ [DomEvent.themeChange isDark (if isDark then "dark" else "light")] := by
  cases isDark <;> cases animate <;>
    simp [setTheme, updateThemeVariables, dispatchThemeChangeEvent]

lemma setTheme_pendingTimers (isDark animate : Bool) (s : ManagerState) :
    (setTheme isDark animate s).pendingTimers =
      s.pendingTimers ++ (if animate then [(300, TimerAction.clearTransitionMarker)] else []) := by
  cases isDark <;> cases animate <;>
    simp [setTheme, updateThemeVariables, dispatchThemeChangeEvent]

lemma setTheme_untouched (isDark animate : Bool) (s : ManagerState) :
    (setTheme isDark animate s).langAttr = s.langAttr ∧
    (setTheme isDark animate s).toggleBtn = s.toggleBtn ∧
    (setTheme isDark animate s).opacityStyle = s.opacityStyle ∧
    (setTheme isDark animate s).transitionStyle = s.transitionStyle ∧
    (setTheme isDark animate s).titleText = s.titleText ∧
    (setTheme isDark animate s).metaDescription = s.metaDescription ∧
    (setTheme isDark animate s).i18nElements = s.i18nElements := by
  cases isDark <;> cases animate <;>
    simp [setTheme, updateThemeVariables, dispatchThemeChangeEvent]

lemma theme_mem_setTheme (isDark animate : Bool) (s : ManagerState) :
    THEME_CLASS_NAME ∈ (setTheme isDark animate s).rootClasses ↔ isDark = true := by
  rw [setTheme_rootClasses]
  cases isDark
  · simp [mem_classListRemove]
  · simp [mem_classListAdd]

lemma transition_ne_theme : TRANSITION_CLASS_NAME ≠ THEME_CLASS_NAME := by decide

lemma transition_mem_setTheme (isDark : Bool) (s : ManagerState) :
    TRANSITION_CLASS_NAME ∈ (setTheme isDark true s).rootClasses := by
  cases isDark <;>
    simp [setTheme_rootClasses, mem_classListRemove, mem_classListAdd, transition_ne_theme]

lemma classListContains_setTheme (isDark animate : Bool) (s : ManagerState) :
    classListContains (setTheme isDark animate s).rootClasses THEME_CLASS_NAME = isDark := by
  cases isDark
  · have h := (theme_mem_setTheme false animate s)
    simp only [Bool.false_eq_true, iff_false] at h
    exact Bool.eq_false_iff.mpr (fun hc => h ((classListContains_iff _ _).mp hc))
  · exact (classListContains_iff _ _).mpr ((theme_mem_setTheme true animate s).mpr rfl)

lemma setLanguage_langAttr (c : String) (a : Bool) (s : ManagerState) :
    (setLanguage c a s).langAttr = some (if c ∈ SUPPORTED_LANGUAGES then c else "en") := by
  by_cases hc : c ∈ SUPPORTED_LANGUAGES <;> cases a <;> simp [setLanguage, hc]

lemma setLanguage_storage (c : String) (a : Bool) (s : ManagerState) :
    (setLanguage c a s).storage =
      setAssoc s.storage LANGUAGE_STORAGE_KEY (if c ∈ SUPPORTED_LANGUAGES then c else "en") := by
  by_cases hc : c ∈ SUPPORTED_LANGUAGES <;> cases a <;> simp [setLanguage, hc]

lemma setLanguage_untouched (c : String) (a : Bool) (s : ManagerState) :
    (setLanguage c a s).rootClasses = s.rootClasses ∧
    (setLanguage c a s).events = s.events ∧
    (setLanguage c a s).rootStyleProps = s.rootStyleProps ∧
    (setLanguage c a s).toggleBtn = s.toggleBtn ∧
    (setLanguage c a s).titleText = s.titleText ∧
    (setLanguage c a s).metaDescription = s.metaDescription ∧
    (setLanguage c a s).i18nElements = s.i18nElements := by
  by_cases hc : c ∈ SUPPORTED_LANGUAGES <;> cases a <;> simp [setLanguage, hc]

lemma updateThemeToggleButton_untouched (s : ManagerState) :
    (updateThemeToggleButton s).rootClasses = s.rootClasses ∧
    (updateThemeToggleButton s).storage = s.storage ∧
    (updateThemeToggleButton s).events = s.events ∧
    (updateThemeToggleButton s).pendingTimers = s.pendingTimers ∧
    (updateThemeToggleButton s).rootStyleProps = s.rootStyleProps ∧
    (updateThemeToggleButton s).langAttr = s.langAttr := by
  cases h : s.toggleBtn <;> simp [updateThemeToggleButton, h]

lemma updateThemeToggleButton_btn (s : ManagerState) (b : Button)
    (h : s.toggleBtn = some b) :
    (updateThemeToggleButton s).toggleBtn = some
      (Button.mk
        (some (if classListContains s.rootClasses THEME_CLASS_NAME then "Switch to light theme" else "Switch to dark theme"))
        (if classListContains s.rootClasses THEME_CLASS_NAME then "☀️" else "🌙")) := by
  simp [updateThemeToggleButton, h]

/-! ### Lemmas about the translation table -/

lemma translations_values_ne_empty :
    ∀ p ∈ translations, ∀ q ∈ p.2, q.2 ≠ "" := by decide

lemma translationLookup_ne_empty (L k v : String)
    (h : translationLookup L k = some v) : v ≠ "" := by
  unfold translationLookup at h
  cases htbl : getAssoc translations L with
  | none => rw [htbl] at h; exact absurd h (by simp)
  | some tbl =>
      rw [htbl] at h
      obtain ⟨q, hq, _, hq2⟩ := exists_mem_of_getAssoc_eq_some tbl k v h
      obtain ⟨p, hp, _, hp2⟩ := exists_mem_of_getAssoc_eq_some translations L tbl htbl
      exact hq2 ▸ translations_values_ne_empty p hp q (hp2 ▸ hq)

lemma getTranslation_eq_spec (L k : String) :
    getTranslation L k = getTranslationSpec L k := by
  unfold getTranslation getTranslationSpec jsStringOr
  cases h1 : translationLookup L k with
  | some v => simp [translationLookup_ne_empty L k v h1]
  | none =>
      cases h2 : translationLookup "en" k with
      | some w => simp [translationLookup_ne_empty "en" k w h2]
      | none => simp

lemma getTranslation_ne_empty (L k : String) (hk : k ≠ "") :
    getTranslation L k ≠ "" := by
  rw [getTranslation_eq_spec]
  unfold getTranslationSpec
  cases h1 : translationLookup L k with
  | some v => simpa using translationLookup_ne_empty L k v h1
  | none =>
      cases h2 : translationLookup "en" k with
      | some w => simpa using translationLookup_ne_empty "en" k w h2
      | none => simpa using hk

/-! ### The hero image toggler of the second script -/

/-- Source constant themes of the hero toggler. -/
def heroThemes : List String := ["light", "dark"]

/-- The state touched by the hero toggler: its module level index, the
root data-theme attribute and the hero image src. -/
structure HeroState where
  currentThemeIndex : Nat
  dataTheme : Option String
  heroImageSrc : Option String
  deriving DecidableEq

/-- Page load state of the hero script: index zero, attributes unset. -/
def heroInitialState : HeroState :=
  { currentThemeIndex := 0, dataTheme := none, heroImageSrc := none }

/-- The click handler: advances the index modulo the theme count, writes
the data-theme attribute and swaps the hero image src accordingly. -/
def heroToggleClick (s : HeroState) : HeroState :=
  let idx := (s.currentThemeIndex + 1) % heroThemes.length
  let newTheme := heroThemes.getD idx ""
  { currentThemeIndex := idx, dataTheme := some newTheme,
    heroImageSrc := some ("assets/hero-" ++ newTheme ++ ".svg") }

/-- The state after k clicks from page load. -/
def heroClicks : Nat → HeroState
  | 0 => heroInitialState
  | k + 1 => heroToggleClick (heroClicks k)

lemma heroClicks_index (k : Nat) : (heroClicks k).currentThemeIndex = k % 2 := by
  induction k with
  | zero => rfl
  | succ k ih =>
      simp only [heroClicks, heroToggleClick, ih]
      show (k % 2 + 1) % 2 = (k + 1) % 2
      omega

/-! ### Further derived facts used by the claims -/

lemma detectBrowserLanguage_mem (browserLang : String) :
    detectBrowserLanguage browserLang ∈ SUPPORTED_LANGUAGES := by
  unfold detectBrowserLanguage
  by_cases h : splitHeadLower browserLang ∈ SUPPORTED_LANGUAGES
  · simp [h]
  · simp only [if_neg h]
    decide

lemma detect_frCA : detectBrowserLanguage "fr-CA" = "fr" := by decide

lemma toggleTheme_rootClasses (s : ManagerState) :
    (toggleTheme s).rootClasses =
      (setTheme (!classListContains s.rootClasses THEME_CLASS_NAME) true s).rootClasses := by
  simp only [toggleTheme]
  exact (updateThemeToggleButton_untouched _).1

/-! ### Claims -/

/-- Concrete state refuting the literal reading of claim C1: the theme
storage key holds the empty string. -/
def c1State : ManagerState := { emptyState with storage := [("portfolio-theme", "")] }

/-- Claim C1, counterexample: a stored (empty string) theme value exists,
yet the resolved theme follows the OS signal, so the stored value does
not determine the theme regardless of the OS dark mode signal. -/
theorem c1_counterexample :
    getAssoc c1State.storage THEME_STORAGE_KEY = some "" ∧
    THEME_CLASS_NAME ∈ (initializeTheme true c1State).rootClasses ∧
    THEME_CLASS_NAME ∉ (initializeTheme false c1State).rootClasses := by decide

/-- Claim C1, amended: on initialization a stored non-empty theme value
determines the theme (dark exactly when it equals dark) regardless of
the OS signal; with no stored value or an empty stored string the OS
signal decides; for language a stored truthy supported value is used,
otherwise the lowercased primary subtag of the browser locale, and when
that subtag is unsupported the default code en. -/
theorem c1_initialization_precedence (s : ManagerState) (prefersDark : Bool)
    (browserLang : String) :
    (∀ v, getAssoc s.storage THEME_STORAGE_KEY = some v → v ≠ "" →
      (THEME_CLASS_NAME ∈ (initializeTheme prefersDark s).rootClasses ↔ v = "dark")) ∧
    (jsTruthy (getAssoc s.storage THEME_STORAGE_KEY) = false →
      (THEME_CLASS_NAME ∈ (initializeTheme prefersDark s).rootClasses ↔ prefersDark = true)) ∧
    (∀ v, getAssoc s.storage LANGUAGE_STORAGE_KEY = some v → v ∈ SUPPORTED_LANGUAGES →
      (initializeLanguage browserLang s).langAttr = some v) ∧
    ((jsTruthy (getAssoc s.storage LANGUAGE_STORAGE_KEY) = false ∨
        (getAssoc s.storage LANGUAGE_STORAGE_KEY).getD "" ∉ SUPPORTED_LANGUAGES) →
      (initializeLanguage browserLang s).langAttr = some (detectBrowserLanguage browserLang)) ∧
    (splitHeadLower browserLang ∉ SUPPORTED_LANGUAGES →
      detectBrowserLanguage browserLang = "en") := by
  refine ⟨?_, ?_, ?_, ?_, ?_⟩
  · intro v hv hne
    have htr : jsTruthy (some v) = true := by simp [jsTruthy, bne_iff_ne, hne]
    simp only [initializeTheme]
    rw [hv]
    rw [theme_mem_setTheme]
    simp [htr]
  · intro hf
    simp only [initializeTheme]
    rw [theme_mem_setTheme]
    simp [hf]
  · intro v hv hsup
    have hne : v ≠ "" := by
      intro hemp
      rw [hemp] at hsup
      exact absurd hsup (by decide)
    have htr : jsTruthy (some v) = true := by simp [jsTruthy, bne_iff_ne, hne]
    simp only [initializeLanguage]
    rw [hv]
    rw [if_pos ⟨htr, by simpa using hsup⟩]
    simp only [Option.getD_some]
    rw [setLanguage_langAttr, if_pos hsup]
  · intro hor
    have hcond : ¬ (jsTruthy (getAssoc s.storage LANGUAGE_STORAGE_KEY) = true ∧
        (getAssoc s.storage LANGUAGE_STORAGE_KEY).getD "" ∈ SUPPORTED_LANGUAGES) := by
      rcases hor with h | h
      · exact fun hc => absurd hc.1 (by simp [h])
      · exact fun hc => h hc.2
    simp only [initializeLanguage]
    rw [if_neg hcond]
    rw [setLanguage_langAttr, if_pos (detectBrowserLanguage_mem browserLang)]
  · intro h
    simp only [detectBrowserLanguage]
    rw [if_neg h]

/-- Witness state for claim C1: both preferences stored. -/
def c1WitnessState : ManagerState :=
  { emptyState with storage := [("portfolio-theme", "dark"), ("portfolio-language", "de")] }

theorem c1_witness :
    (THEME_CLASS_NAME ∈ (initializeTheme false c1WitnessState).rootClasses ↔ "dark" = "dark") ∧
    (initializeLanguage "fr-CA" c1WitnessState).langAttr = some "de" ∧
    (THEME_CLASS_NAME ∈ (initializeTheme true emptyState).rootClasses ↔ true = true) ∧
    (initializeLanguage "fr-CA" emptyState).langAttr = some (detectBrowserLanguage "fr-CA") ∧
    detectBrowserLanguage "xx-YY" = "en" :=
  ⟨(c1_initialization_precedence c1WitnessState false "fr-CA").1 "dark" (by decide) (by decide),
   (c1_initialization_precedence c1WitnessState false "fr-CA").2.2.1 "de" (by decide) (by decide),
   (c1_initialization_precedence emptyState true "fr-CA").2.1 (by decide),
   (c1_initialization_precedence emptyState true "fr-CA").2.2.2.1 (Or.inl (by decide)),
   (c1_initialization_precedence emptyState true "xx-YY").2.2.2.2 (by decide)⟩

/-- Claim C2, counterexample: at the empty key both lookups miss and the
literal key is returned, which is the empty string, refuting that the
returned string is never empty for every pair. -/
theorem c2_counterexample : getTranslation "en" "" = "" := by decide

/-- Claim C2, amended: for every language code and key, getTranslation
returns the exact entry when present, else the default language entry
when present, else the literal key, and the result is non-empty whenever
the key is non-empty; the lookup is a total function. -/
theorem c2_translation_fallback (L k : String) :
    (∀ v, translationLookup L k = some v → getTranslation L k = v) ∧
    (translationLookup L k = none →
      ∀ v, translationLookup "en" k = some v → getTranslation L k = v) ∧
    (translationLookup L k = none → translationLookup "en" k = none →
      getTranslation L k = k) ∧
    (k ≠ "" → getTranslation L k ≠ "") := by
  refine ⟨?_, ?_, ?_, getTranslation_ne_empty L k⟩
  · intro v h
    rw [getTranslation_eq_spec]
    unfold getTranslationSpec
    rw [h]
  · intro h1 v h2
    rw [getTranslation_eq_spec]
    unfold getTranslationSpec
    rw [h1, h2]
  · intro h1 h2
    rw [getTranslation_eq_spec]
    unfold getTranslationSpec
    rw [h1, h2]

theorem c2_witness :
    getTranslation "fr" "page-title" = "Portefeuille" ∧
    getTranslation "xx" "page-title" = "Portfolio" ∧
    getTranslation "fr" "missing-key" = "missing-key" ∧
    getTranslation "xx" "some-key" ≠ "" :=
  ⟨(c2_translation_fallback "fr" "page-title").1 "Portefeuille" (by decide),
   (c2_translation_fallback "xx" "page-title").2.1 (by decide) "Portfolio" (by decide),
   (c2_translation_fallback "fr" "missing-key").2.2.1 (by decide) (by decide),
   (c2_translation_fallback "xx" "some-key").2.2.2 (by decide)⟩

/-- Claim C3: for every unsupported language code and either animate
flag, setLanguage applies and persists the default code en, leaving the
document lang attribute and the stored language value at en; the
operation is total, so no error reaches the caller. -/
theorem c3_unsupported_language (L : String) (animate : Bool) (s : ManagerState)
    (h : L ∉ SUPPORTED_LANGUAGES) :
    (setLanguage L animate s).langAttr = some "en" ∧
    getAssoc (setLanguage L animate s).storage LANGUAGE_STORAGE_KEY = some "en" := by
  constructor
  · rw [setLanguage_langAttr, if_neg h]
  · rw [setLanguage_storage, if_neg h, getAssoc_setAssoc_self]

theorem c3_witness :
    (setLanguage "xx" true emptyState).langAttr = some "en" ∧
    getAssoc (setLanguage "xx" true emptyState).storage LANGUAGE_STORAGE_KEY = some "en" :=
  c3_unsupported_language "xx" true emptyState (by decide)

/-- Claim C4: applying the dark theme twice without animation yields the
same root class list, the same CSS custom properties and the same
storage as applying it once, the persisted value is dark, and the class
list stays free of duplicates. -/
theorem c4_applyTheme_idempotent (s : ManagerState) (h : s.rootClasses.Nodup) :
    (setTheme true false (setTheme true false s)).rootClasses = (setTheme true false s).rootClasses ∧
    (setTheme true false (setTheme true false s)).rootStyleProps = (setTheme true false s).rootStyleProps ∧
    (setTheme true false (setTheme true false s)).storage = (setTheme true false s).storage ∧
    getAssoc (setTheme true false s).storage THEME_STORAGE_KEY = some "dark" ∧
    (setTheme true false s).rootClasses.Nodup ∧
    (setTheme true false (setTheme true false s)).rootClasses.Nodup := by
  have hrc : (setTheme true false s).rootClasses = classListAdd s.rootClasses THEME_CLASS_NAME := by
    rw [setTheme_rootClasses]
    simp
  have hnd : (setTheme true false s).rootClasses.Nodup := by
    rw [hrc]
    exact nodup_classListAdd _ _ h
  refine ⟨?_, ?_, ?_, ?_, hnd, ?_⟩
  · rw [setTheme_rootClasses true false (setTheme true false s), hrc]
    simp [classListAdd_idem]
  · rw [setTheme_rootStyleProps true false (setTheme true false s), setTheme_rootStyleProps]
    simp only [if_true]
    exact setProperties_idem _ _ (by decide)
  · rw [setTheme_storage true false (setTheme true false s), setTheme_storage]
    simp only [if_true]
    exact setAssoc_of_getAssoc_eq _ _ _ (getAssoc_setAssoc_self _ _ _)
  · rw [setTheme_storage]
    simp only [if_true]
    exact getAssoc_setAssoc_self _ _ _
  · rw [setTheme_rootClasses true false (setTheme true false s), hrc]
    simp only [if_true, Bool.false_eq_true, if_false]
    rw [classListAdd_idem]
    exact nodup_classListAdd _ _ h

theorem c4_witness :
    (setTheme true false (setTheme true false emptyState)).rootClasses = (setTheme true false emptyState).rootClasses ∧
    (setTheme true false (setTheme true false emptyState)).rootStyleProps = (setTheme true false emptyState).rootStyleProps ∧
    (setTheme true false (setTheme true false emptyState)).storage = (setTheme true false emptyState).storage ∧
    getAssoc (setTheme true false emptyState).storage THEME_STORAGE_KEY = some "dark" ∧
    (setTheme true false emptyState).rootClasses.Nodup ∧
    (setTheme true false (setTheme true false emptyState)).rootClasses.Nodup :=
  c4_applyTheme_idempotent emptyState (by decide)

/-- Claim C5: with no stored theme and the OS reporting dark, the
non-animated initial load applies the dark class, persists dark,
dispatches the themeChange event with isDark true and theme dark, never
adds the transition class, and schedules no timer. -/
theorem c5_initial_dark_load (s : ManagerState)
    (h1 : getAssoc s.storage THEME_STORAGE_KEY = none)
    (h2 : TRANSITION_CLASS_NAME ∉ s.rootClasses) :
    THEME_CLASS_NAME ∈ (initializeTheme true s).rootClasses ∧
    getAssoc (initializeTheme true s).storage THEME_STORAGE_KEY = some "dark" ∧
    (initializeTheme true s).events = s.events ++ [DomEvent.themeChange true "dark"] ∧
    TRANSITION_CLASS_NAME ∉ (initializeTheme true s).rootClasses ∧
    (initializeTheme true s).pendingTimers = s.pendingTimers := by
  have hred : initializeTheme true s = setTheme true false s := by
    simp only [initializeTheme]
    rw [h1]
    simp [jsTruthy]
  refine ⟨?_, ?_, ?_, ?_, ?_⟩
  · rw [hred]
    exact (theme_mem_setTheme true false s).mpr rfl
  · rw [hred, setTheme_storage]
    simp only [if_true]
    exact getAssoc_setAssoc_self _ _ _
  · rw [hred, setTheme_events]
    simp
  · rw [hred, setTheme_rootClasses]
    simp [mem_classListAdd, h2, transition_ne_theme]
  · rw [hred, setTheme_pendingTimers]
    simp

theorem c5_witness :
    THEME_CLASS_NAME ∈ (initializeTheme true emptyState).rootClasses ∧
    getAssoc (initializeTheme true emptyState).storage THEME_STORAGE_KEY = some "dark" ∧
    (initializeTheme true emptyState).events = emptyState.events ++ [DomEvent.themeChange true "dark"] ∧
    TRANSITION_CLASS_NAME ∉ (initializeTheme true emptyState).rootClasses ∧
    (initializeTheme true emptyState).pendingTimers = emptyState.pendingTimers :=
  c5_initial_dark_load emptyState (by decide) (by decide)

/-- Claim C6: toggleTheme reads the applied theme from the root class
list, applies its inverse with animation (transition class present and
its removal scheduled), persists the inverse, dispatches the matching
event, refreshes the button label and icon for the new state, and its
effect on the class list does not depend on storage. -/
theorem c6_toggleTheme (s : ManagerState) (b : Button) (h : s.toggleBtn = some b) :
    (THEME_CLASS_NAME ∈ (toggleTheme s).rootClasses ↔
      classListContains s.rootClasses THEME_CLASS_NAME = false) ∧
    TRANSITION_CLASS_NAME ∈ (toggleTheme s).rootClasses ∧
    getAssoc (toggleTheme s).storage THEME_STORAGE_KEY =
      some (if classListContains s.rootClasses THEME_CLASS_NAME then "light" else "dark") ∧
    (toggleTheme s).events = s.events ++
      [DomEvent.themeChange (!classListContains s.rootClasses THEME_CLASS_NAME)
        (if classListContains s.rootClasses THEME_CLASS_NAME then "light" else "dark")] ∧
    (toggleTheme s).pendingTimers = s.pendingTimers ++ [(300, TimerAction.clearTransitionMarker)] ∧
    (toggleTheme s).toggleBtn = some
      (Button.mk
        (some (if classListContains s.rootClasses THEME_CLASS_NAME then "Switch to dark theme" else "Switch to light theme"))
        (if classListContains s.rootClasses THEME_CLASS_NAME then "🌙" else "☀️")) ∧
    (∀ st : List (String × String),
      (toggleTheme { s with storage := st }).rootClasses = (toggleTheme s).rootClasses) := by
  have hback : ∀ st : List (String × String),
      (toggleTheme { s with storage := st }).rootClasses = (toggleTheme s).rootClasses := by
    intro st
    rw [toggleTheme_rootClasses, toggleTheme_rootClasses, setTheme_rootClasses, setTheme_rootClasses]
  have hbtn2 : ∀ d : Bool, (setTheme d true s).toggleBtn = some b := by
    intro d
    rw [(setTheme_untouched d true s).2.1]
    exact h
  cases hc : classListContains s.rootClasses THEME_CLASS_NAME
  · have ht : toggleTheme s = updateThemeToggleButton (setTheme true true s) := by
      simp only [toggleTheme, hc, Bool.not_false]
    refine ⟨?_, ?_, ?_, ?_, ?_, ?_, hback⟩
    · rw [ht, (updateThemeToggleButton_untouched _).1, theme_mem_setTheme]
      simp
    · rw [ht, (updateThemeToggleButton_untouched _).1]
      exact transition_mem_setTheme true s
    · rw [ht, (updateThemeToggleButton_untouched _).2.1, setTheme_storage]
      simp only [if_true]
      rw [getAssoc_setAssoc_self]
      simp
    · rw [ht, (updateThemeToggleButton_untouched _).2.2.1, setTheme_events]
      simp
    · rw [ht, (updateThemeToggleButton_untouched _).2.2.2.1, setTheme_pendingTimers]
      simp
    · rw [ht, updateThemeToggleButton_btn (setTheme true true s) b (hbtn2 true)]
      rw [classListContains_setTheme]
      simp
  · have ht : toggleTheme s = updateThemeToggleButton (setTheme false true s) := by
      simp only [toggleTheme, hc, Bool.not_true]
    refine ⟨?_, ?_, ?_, ?_, ?_, ?_, hback⟩
    · rw [ht, (updateThemeToggleButton_untouched _).1, theme_mem_setTheme]
      simp
    · rw [ht, (updateThemeToggleButton_untouched _).1]
      exact transition_mem_setTheme false s
    · rw [ht, (updateThemeToggleButton_untouched _).2.1, setTheme_storage]
      simp only [Bool.false_eq_true, if_false]
      rw [getAssoc_setAssoc_self]
      simp
    · rw [ht, (updateThemeToggleButton_untouched _).2.2.1, setTheme_events]
      simp
    · rw [ht, (updateThemeToggleButton_untouched _).2.2.2.1, setTheme_pendingTimers]
      simp
    · rw [ht, updateThemeToggleButton_btn (setTheme false true s) b (hbtn2 false)]
      rw [classListContains_setTheme]
      simp

/-- Witness state for claim C6: a present toggle button on a light page. -/
def c6WitnessState : ManagerState :=
  { emptyState with toggleBtn := some (Button.mk none "🌙") }

theorem c6_witness :
    TRANSITION_CLASS_NAME ∈ (toggleTheme c6WitnessState).rootClasses ∧
    getAssoc (toggleTheme c6WitnessState).storage THEME_STORAGE_KEY =
      some (if classListContains c6WitnessState.rootClasses THEME_CLASS_NAME then "light" else "dark") ∧
    (toggleTheme c6WitnessState).toggleBtn = some
      (Button.mk
        (some (if classListContains c6WitnessState.rootClasses THEME_CLASS_NAME then "Switch to dark theme" else "Switch to light theme"))
        (if classListContains c6WitnessState.rootClasses THEME_CLASS_NAME then "🌙" else "☀️")) :=
  ⟨(c6_toggleTheme c6WitnessState (Button.mk none "🌙") rfl).2.1,
   (c6_toggleTheme c6WitnessState (Button.mk none "🌙") rfl).2.2.1,
   (c6_toggleTheme c6WitnessState (Button.mk none "🌙") rfl).2.2.2.2.2.1⟩

/-- Concrete state refuting the literal reading of claim C7: the theme
storage key holds the empty string. -/
def c7State : ManagerState := { emptyState with storage := [("portfolio-theme", "")] }

/-- Claim C7, counterexample: a stored theme value exists (the empty
string), yet the OS change signal does change the theme. -/
theorem c7_counterexample :
    getAssoc c7State.storage THEME_STORAGE_KEY = some "" ∧
    (systemThemeChangeHandler true c7State).rootClasses ≠ c7State.rootClasses ∧
    THEME_CLASS_NAME ∈ (systemThemeChangeHandler true c7State).rootClasses := by decide

/-- Claim C7, amended: on the OS change signal the coordinator re-applies
the theme with animation exactly when the stored theme value is falsy
(absent or the empty string); with a truthy stored value the signal
changes nothing. -/
theorem c7_system_listener (s : ManagerState) (eMatches : Bool) :
    (jsTruthy (getAssoc s.storage THEME_STORAGE_KEY) = true →
      systemThemeChangeHandler eMatches s = s) ∧
    (jsTruthy (getAssoc s.storage THEME_STORAGE_KEY) = false →
      systemThemeChangeHandler eMatches s = setTheme eMatches true s ∧
      (THEME_CLASS_NAME ∈ (systemThemeChangeHandler eMatches s).rootClasses ↔ eMatches = true) ∧
      TRANSITION_CLASS_NAME ∈ (systemThemeChangeHandler eMatches s).rootClasses) := by
  constructor
  · intro h
    simp [systemThemeChangeHandler, h]
  · intro h
    have heq : systemThemeChangeHandler eMatches s = setTheme eMatches true s := by
      simp [systemThemeChangeHandler, h]
    refine ⟨heq, ?_, ?_⟩
    · rw [heq]
      exact theme_mem_setTheme eMatches true s
    · rw [heq]
      exact transition_mem_setTheme eMatches s

/-- Witness state for claim C7: a truthy stored theme value. -/
def c7WitnessState : ManagerState := { emptyState with storage := [("portfolio-theme", "light")] }

theorem c7_witness :
    systemThemeChangeHandler true c7WitnessState = c7WitnessState ∧
    TRANSITION_CLASS_NAME ∈ (systemThemeChangeHandler true emptyState).rootClasses :=
  ⟨(c7_system_listener c7WitnessState true).1 (by decide),
   ((c7_system_listener emptyState true).2 (by decide)).2.2⟩

/-- The scenario of claim C8 after the reset: a full reload on the
surviving storage followed by re-initialization with the OS reporting
dark and the browser locale fr-CA. -/
def postResetState (s : ManagerState) : ManagerState :=
  initializeLanguage "fr-CA" (initializeTheme true (reloadedState (resetToSystemPreferences s).storage))

/-- Claim C8: resetToSystemPreferences removes exactly the two
preference keys, and after reload the re-initialization with OS dark
mode and locale fr-CA applies and persists the dark theme and the
language fr. -/
theorem c8_reset_roundtrip (s : ManagerState) :
    getAssoc (resetToSystemPreferences s).storage THEME_STORAGE_KEY = none ∧
    getAssoc (resetToSystemPreferences s).storage LANGUAGE_STORAGE_KEY = none ∧
    (∀ k, k ≠ THEME_STORAGE_KEY → k ≠ LANGUAGE_STORAGE_KEY →
      getAssoc (resetToSystemPreferences s).storage k = getAssoc s.storage k) ∧
    THEME_CLASS_NAME ∈ (postResetState s).rootClasses ∧
    getAssoc (postResetState s).storage THEME_STORAGE_KEY = some "dark" ∧
    (postResetState s).langAttr = some "fr" ∧
    getAssoc (postResetState s).storage LANGUAGE_STORAGE_KEY = some "fr" := by
  have hTL : THEME_STORAGE_KEY ≠ LANGUAGE_STORAGE_KEY := by decide
  have h1 : getAssoc (resetToSystemPreferences s).storage THEME_STORAGE_KEY = none := by
    simp only [resetToSystemPreferences]
    rw [getAssoc_removeAssoc_ne _ _ _ hTL, getAssoc_removeAssoc_self]
  have h2 : getAssoc (resetToSystemPreferences s).storage LANGUAGE_STORAGE_KEY = none := by
    simp only [resetToSystemPreferences]
    rw [getAssoc_removeAssoc_self]
  have hinit : initializeTheme true (reloadedState (resetToSystemPreferences s).storage) =
      setTheme true false (reloadedState (resetToSystemPreferences s).storage) := by
    simp only [initializeTheme, reloadedState]
    simp [h1, jsTruthy]
  have hs1L : getAssoc (initializeTheme true (reloadedState (resetToSystemPreferences s).storage)).storage LANGUAGE_STORAGE_KEY = none := by
    rw [hinit, setTheme_storage, getAssoc_setAssoc_ne _ _ _ _ (Ne.symm hTL)]
    simpa [reloadedState] using h2
  have hlang : postResetState s =
      setLanguage "fr" false (initializeTheme true (reloadedState (resetToSystemPreferences s).storage)) := by
    simp only [postResetState, initializeLanguage]
    rw [hs1L]
    rw [if_neg (by simp [jsTruthy])]
    rw [detect_frCA]
  refine ⟨h1, h2, ?_, ?_, ?_, ?_, ?_⟩
  · intro k hk1 hk2
    simp only [resetToSystemPreferences]
    rw [getAssoc_removeAssoc_ne _ _ _ hk2, getAssoc_removeAssoc_ne _ _ _ hk1]
  · rw [hlang, (setLanguage_untouched _ _ _).1, hinit]
    exact (theme_mem_setTheme true false _).mpr rfl
  · rw [hlang, setLanguage_storage, if_pos (by decide : ("fr" : String) ∈ SUPPORTED_LANGUAGES)]
    rw [getAssoc_setAssoc_ne _ _ _ _ hTL, hinit, setTheme_storage]
    simp only [if_true]
    exact getAssoc_setAssoc_self _ _ _
  · rw [hlang, setLanguage_langAttr, if_pos (by decide : ("fr" : String) ∈ SUPPORTED_LANGUAGES)]
  · rw [hlang, setLanguage_storage, if_pos (by decide : ("fr" : String) ∈ SUPPORTED_LANGUAGES)]
    exact getAssoc_setAssoc_self _ _ _

/-- Witness state for claim C8: a third key that must survive the reset. -/
def c8State : ManagerState :=
  { emptyState with storage := [("other-key", "keep"), ("portfolio-theme", "dark"), ("portfolio-language", "de")] }

theorem c8_witness :
    getAssoc (resetToSystemPreferences c8State).storage "other-key" = getAssoc c8State.storage "other-key" ∧
    getAssoc (resetToSystemPreferences c8State).storage THEME_STORAGE_KEY = none ∧
    (postResetState c8State).langAttr = some "fr" :=
  ⟨(c8_reset_roundtrip c8State).2.2.1 "other-key" (by decide) (by decide),
   (c8_reset_roundtrip c8State).1,
   (c8_reset_roundtrip c8State).2.2.2.2.2.1⟩

/-- Claim C9: initialization itself persists the resolved theme as dark
or light, that stored value is truthy, hence the OS change listener
guard fails and the handler leaves the state unchanged; and setTheme
unconditionally writes dark or light to the theme storage key. -/
theorem c9_init_persists (s : ManagerState) (prefersDark eMatches : Bool) :
    (getAssoc (initializeTheme prefersDark s).storage THEME_STORAGE_KEY = some "dark" ∨
     getAssoc (initializeTheme prefersDark s).storage THEME_STORAGE_KEY = some "light") ∧
    jsTruthy (getAssoc (initializeTheme prefersDark s).storage THEME_STORAGE_KEY) = true ∧
    systemThemeChangeHandler eMatches (initializeTheme prefersDark s) = initializeTheme prefersDark s ∧
    (∀ (isDark animate : Bool) (t : ManagerState),
      getAssoc (setTheme isDark animate t).storage THEME_STORAGE_KEY =
        some (if isDark then "dark" else "light")) := by
  have hset : ∀ (isDark animate : Bool) (t : ManagerState),
      getAssoc (setTheme isDark animate t).storage THEME_STORAGE_KEY =
        some (if isDark then "dark" else "light") := by
    intro d a t
    rw [setTheme_storage]
    exact getAssoc_setAssoc_self _ _ _
  have hd : ∃ d : Bool, initializeTheme prefersDark s = setTheme d false s := ⟨_, rfl⟩
  obtain ⟨d, hd⟩ := hd
  rw [hd, hset d false s]
  refine ⟨?_, ?_, ?_, hset⟩
  · cases d
    · exact Or.inr rfl
    · exact Or.inl rfl
  · cases d <;> simp [jsTruthy]
  · have hcond : jsTruthy (getAssoc (setTheme d false s).storage THEME_STORAGE_KEY) = true := by
      rw [hset d false s]
      cases d <;> simp [jsTruthy]
    simp [systemThemeChangeHandler, hcond]

/-- Claim C10: in the hero toggler, after the k-th click the data-theme
attribute is dark for odd k and light for even k, the first click yields
dark, and the hero image src is assets/hero- followed by the current
data-theme value and .svg. -/
theorem c10_hero_toggle (k : Nat) (hk : 1 ≤ k) :
    (heroClicks k).dataTheme = some (if k % 2 = 1 then "dark" else "light") ∧
    (heroClicks k).heroImageSrc =
      some ("assets/hero-" ++ (if k % 2 = 1 then "dark" else "light") ++ ".svg") ∧
    (heroClicks 1).dataTheme = some "dark" := by
  obtain ⟨j, rfl⟩ : ∃ j, k = j + 1 := ⟨k - 1, by omega⟩
  have hidx2 : ((heroClicks j).currentThemeIndex + 1) % heroThemes.length = (j + 1) % 2 := by
    rw [heroClicks_index]
    show (j % 2 + 1) % 2 = (j + 1) % 2
    omega
  refine ⟨?_, ?_, by decide⟩
  · simp only [heroClicks, heroToggleClick, hidx2]
    rcases Nat.mod_two_eq_zero_or_one (j + 1) with h | h <;> rw [h] <;> rfl
  · simp only [heroClicks, heroToggleClick, hidx2]
    rcases Nat.mod_two_eq_zero_or_one (j + 1) with h | h <;> rw [h] <;> rfl

theorem c10_witness :
    (heroClicks 2).dataTheme = some "light" ∧
    (heroClicks 1).dataTheme = some "dark" :=
  ⟨(c10_hero_toggle 2 (by decide)).1, (c10_hero_toggle 1 (by decide)).2.2⟩

end Portfolio
